import Mathlib

/- A shallow embedding of the rt890-flash tool (src/uart.rs, src/spi.rs,
   src/main.rs), a host-side flasher for the Radtel RT-890 radio.

   Serial traffic is modelled by an explicit `Link` state: `rx` is the byte
   stream the device will supply, `tx` the bytes the host has written so far.
   Byte values are `Nat`; 8-bit wrap-around addition (the Rust code relies on
   `u8` overflow) is written `% 256`.  A Rust panic (process abort) is the
   `Res.err` outcome, which carries the link state at the moment of the abort;
   `Res.ok` carries the returned value and the link state.  The while-loops of
   spi.rs / main.rs are embedded with an explicit fuel argument that the
   top-level entry points instantiate with an upper bound on the iteration
   count, exactly as the Rust loop bounds do. -/

set_option maxRecDepth 2000

namespace RT890

def CHUNK_LENGTH : Nat := 128
def FIRMWARE_SIZE : Nat := 60416
def SPI_FLASH_SIZE : Nat := 4194304

/-- uart.rs `checksum`: the sum, with `u8` wrap-around, of all bytes of the
frame except the trailing checksum byte.  Here `b` is the list of those data
bytes; the Rust function stores `checksum b` into the frame's last slot. -/
def checksum (b : List Nat) : Nat := b.foldl (fun s x => (s + x) % 256) 0

/-- A complete frame: the data bytes followed by their checksum byte. -/
def mkFrame (b : List Nat) : List Nat := b ++ [checksum b]

/-- uart.rs `verify`: the last byte of the frame equals the checksum of the
preceding bytes.  (The Rust code is only ever applied to nonempty frames.) -/
def verify (f : List Nat) : Bool := !f.isEmpty && (f.getLastD 0 == checksum f.dropLast)

/-- The serial link: `rx` is the stream of bytes still to be read from the
device, `tx` is the sequence of bytes the host has written so far. -/
structure Link where
  rx : List Nat
  tx : List Nat
deriving DecidableEq

/-- Model of `write_all`: append the bytes to the outgoing stream. -/
def writeAll (l : Link) (bs : List Nat) : Link := ⟨l.rx, l.tx ++ bs⟩

/-- Model of `read_exact` of `n` bytes: succeeds iff `n` bytes are available,
consuming them; otherwise the read errors (timeout / short read). -/
def readExact (l : Link) (n : Nat) : Option (List Nat × Link) :=
  if n ≤ l.rx.length then some (l.rx.take n, ⟨l.rx.drop n, l.tx⟩) else none

/-- Outcome of a command or of a top-level operation: `ok` is a normal
return, `err` is a propagated I/O error or a Rust panic (process abort). -/
inductive Res (α : Type) where
  | ok : α → Link → Res α
  | err : Link → Res α
deriving DecidableEq

/-- The 5-byte erase frame of `command_eraseflash`. -/
def eraseFrame : List Nat := mkFrame [0x39, 0x00, 0x00, 0x55]

/-- The 132-byte MCU-flash write frame of `command_writeflash`. -/
def writeFlashFrame (offset : Nat) (fw : List Nat) : List Nat :=
  mkFrame ([0x57, (offset >>> 8) &&& 0xFF, offset &&& 0xFF] ++
    (fw.drop offset).take CHUNK_LENGTH)

/-- The 4-byte SPI-read request frame of `command_readspiflash`. -/
def readReqFrame (offset : Nat) : List Nat :=
  mkFrame [0x52, (offset >>> 8) &&& 0xFF, offset &&& 0xFF]

/-- The 132-byte SPI-flash write frame of `command_writespiflash`. -/
def writeSpiFrame (cmd offset : Nat) (spi : List Nat) : List Nat :=
  mkFrame ([cmd, (offset >>> 8) &&& 0xFF, offset &&& 0xFF] ++
    (spi.drop offset).take CHUNK_LENGTH)

/-- The slice `block[3..131].to_vec()`: the 128 payload bytes of a 132-byte response. -/
def framePayload (b : List Nat) : List Nat := (b.drop 3).take 128

/-- uart.rs `command_eraseflash`: send the erase frame, read one ack byte,
return true iff it is 0x06. -/
def command_eraseflash (l : Link) : Res Bool :=
  let l := writeAll l eraseFrame
  match readExact l 1 with
  | some (r, l) => .ok (r == [0x06]) l
  | none => .err l

/-- uart.rs `command_writeflash`: send the 132-byte write frame carrying
`fw[offset..offset+128]`, read one ack byte, true iff 0x06. -/
def command_writeflash (l : Link) (offset : Nat) (fw : List Nat) : Res Bool :=
  let l := writeAll l (writeFlashFrame offset fw)
  match readExact l 1 with
  | some (r, l) => .ok (r == [0x06]) l
  | none => .err l

/-- uart.rs `command_readspiflash`: send the 4-byte request, read a 132-byte
response; if its checksum fails, read one further 132-byte response (without
re-sending); return the payload of the verifying response, or `none` when the
(second) response also fails verification. -/
def command_readspiflash (l : Link) (offset : Nat) : Res (Option (List Nat)) :=
  let l := writeAll l (readReqFrame offset)
  match readExact l 132 with
  | none => .err l
  | some (block, l) =>
    if verify block then .ok (some (framePayload block)) l
    else
      match readExact l 132 with
      | none => .err l
      | some (block2, l2) =>
        if verify block2 then .ok (some (framePayload block2)) l2
        else .ok none l2

/-- spi.rs `SpiRange`: a region of the 4 MiB SPI image, written with a
per-region command opcode. -/
structure SpiRange where
  cmd : Nat
  offset : Nat
  size : Nat
deriving DecidableEq

/-- Modelled from the spec: `command_writespiflash` is called from the
restore loop of spi.rs / main.rs but its definition is not among the source
files.  Per spec sections 4.1 and 4.2 it sends a 132-byte frame
`[region opcode, offset hi, offset lo, 128 payload bytes, checksum]` whose
payload is `image[byte_offset .. byte_offset+128]`, with the offset encoded
on the wire as its low 16 bits, then reads one ack byte; true iff 0x06. -/
def command_writespiflash (l : Link) (r : SpiRange) (offset : Nat)
    (spi : List Nat) : Res Bool :=
  let l := writeAll l (writeSpiFrame r.cmd offset spi)
  match readExact l 1 with
  | some (a, l) => .ok (a == [0x06]) l
  | none => .err l

/-- The full-restore region table of spi.rs / main.rs, in source order. -/
def spi_ranges_full : List SpiRange :=
  [⟨0x40, 0, 2949120⟩,
   ⟨0x41, 2949120, 163840⟩,
   ⟨0x42, 3112960, 139264⟩,
   ⟨0x43, 3252224, 8192⟩,
   ⟨0x47, 3887104, 40960⟩,
   ⟨0x48, 3928064, 4096⟩,
   ⟨0x49, 3936256, 40960⟩,
   ⟨0x4B, 4030464, 40960⟩,
   ⟨0x4C, 3260416, 626688⟩]

/-- The calibration-only region table. -/
def spi_ranges_calib : List SpiRange := [⟨0x48, 3928064, 4096⟩]

/-- The dump loop of `dump_spi_flash`: `for offset in 0..32768`, request a
chunk; append its payload on success, stop on the end-of-data sentinel,
abort on an I/O error.  The fuel counts the remaining loop iterations. -/
def dumpLoop : Nat → Nat → Link → List Nat → Res (List Nat)
  | 0, _, l, file => .ok file l
  | fuel + 1, offset, l, file =>
    match command_readspiflash l offset with
    | .ok (some data) l => dumpLoop fuel (offset + 1) l (file ++ data)
    | .ok none l => .ok file l
    | .err l => .err l

/-- spi.rs / main.rs `dump_spi_flash`, with the output file modelled as the
returned byte list. -/
def dump_spi_flash (l : Link) : Res (List Nat) := dumpLoop 32768 0 l []

/-- The firmware-write loop of `flash_firmware`:
`while offset < FIRMWARE_SIZE`, write one chunk, abort on rejection. -/
def flashLoop : Nat → Nat → List Nat → Link → Res Unit
  | 0, _, _, l => .ok () l
  | fuel + 1, offset, fw, l =>
    if offset < FIRMWARE_SIZE then
      match command_writeflash l offset fw with
      | .ok true l => flashLoop fuel (offset + CHUNK_LENGTH) fw l
      | .ok false l => .err l
      | .err l => .err l
    else .ok () l

/-- spi.rs / main.rs `flash_firmware`: size-gate the image, erase, then
write all chunks.  `Res.ok false` is the size-mismatch return; a rejected
erase or write is a panic, modelled as `Res.err`. -/
def flash_firmware (fw : List Nat) (l : Link) : Res Bool :=
  if fw.length ≠ FIRMWARE_SIZE then .ok false l
  else
    match command_eraseflash l with
    | .ok true l =>
      match flashLoop FIRMWARE_SIZE 0 fw l with
      | .ok _ l => .ok true l
      | .err l => .err l
    | .ok false l => .err l
    | .err l => .err l

/-- The inner region-write loop of `restore_spi_flash`:
`while offset < block_length`, write one chunk, abort on rejection. -/
def writeRegionLoop : Nat → SpiRange → Nat → Nat → List Nat → Link → Res Unit
  | 0, _, _, _, _, l => .ok () l
  | fuel + 1, r, offset, blockLen, spi, l =>
    if offset < blockLen then
      match command_writespiflash l r offset spi with
      | .ok true l => writeRegionLoop fuel r (offset + CHUNK_LENGTH) blockLen spi l
      | .ok false l => .err l
      | .err l => .err l
    else .ok () l

/-- The outer region loop of `restore_spi_flash`: regions in table order. -/
def restoreRegions : List SpiRange → List Nat → Link → Res Unit
  | [], _, l => .ok () l
  | r :: rs, spi, l =>
    match writeRegionLoop r.size r r.offset (r.offset + r.size) spi l with
    | .ok _ l => restoreRegions rs spi l
    | .err l => .err l

/-- spi.rs / main.rs `restore_spi_flash`: size-gate the image, pick the
region table, write every region in order. -/
def restore_spi_flash (calib_only : Bool) (spi : List Nat) (l : Link) : Res Bool :=
  if spi.length ≠ SPI_FLASH_SIZE then .ok false l
  else
    match restoreRegions (if calib_only then spi_ranges_calib else spi_ranges_full) spi l with
    | .ok _ l => .ok true l
    | .err l => .err l

/-- main.rs, `-f` branch: exit status and final link of one invocation.
`Ok(_)` falls through to the end of `main` (status 0, whether the flash
succeeded or the size gate reported a mismatch); a panic exits 101. -/
def mainFlash (fw : List Nat) (l : Link) : Nat × Link :=
  match flash_firmware fw l with
  | .ok _ l => (0, l)
  | .err l => (101, l)

/-- main.rs, `-r` branch: exit status and final link of one invocation. -/
def mainRestore (calib_only : Bool) (spi : List Nat) (l : Link) : Nat × Link :=
  match restore_spi_flash calib_only spi l with
  | .ok _ l => (0, l)
  | .err l => (101, l)

/-- The sequence of (opcode, byte offset) write calls a region table
produces: for each region in order, offsets `offset, offset+128, …`
covering its `size` bytes. -/
def spiCalls : List SpiRange → List (Nat × Nat)
  | [] => []
  | r :: rs => (List.range' r.offset (r.size / 128) 128).map (fun o => (r.cmd, o)) ++ spiCalls rs

/-- Total number of 128-byte chunks a region table covers. -/
def chunkCount : List SpiRange → Nat
  | [] => 0
  | r :: rs => r.size / 128 + chunkCount rs

/-- The set of byte offsets of the 4 MiB image covered by the full-restore
table (the union of the regions' half-open intervals). -/
def spiCovered : Finset Nat :=
  spi_ranges_full.foldr (fun r s => Finset.Ico r.offset (r.offset + r.size) ∪ s) ∅

/-- Membership of a byte offset in a region's half-open interval. -/
def inRange (r : SpiRange) (a : Nat) : Prop := r.offset ≤ a ∧ a < r.offset + r.size

instance (r : SpiRange) (a : Nat) : Decidable (inRange r a) := by
  unfold inRange; infer_instance

/-! Section: Framing lemmas -/

lemma checksum_loop (b : List Nat) :
    ∀ s, b.foldl (fun s x => (s + x) % 256) (s % 256) = (s + b.sum) % 256 := by
  induction b with
  | nil => intro s; simp
  | cons x xs ih =>
    intro s
    have h1 : (s % 256 + x) % 256 = (s + x) % 256 := Nat.mod_add_mod s 256 x
    calc (x :: xs).foldl (fun s x => (s + x) % 256) (s % 256)
        = xs.foldl (fun s x => (s + x) % 256) ((s + x) % 256) := by
          simp [List.foldl_cons, h1]
      _ = (s + x + xs.sum) % 256 := ih (s + x)
      _ = (s + (x :: xs).sum) % 256 := by simp [List.sum_cons]; ring_nf

lemma checksum_eq_sum (b : List Nat) : checksum b = b.sum % 256 := by
  have := checksum_loop b 0
  simpa [checksum] using this

lemma verify_mkFrame (b : List Nat) : verify (mkFrame b) = true := by
  simp [verify, mkFrame, List.getLastD_concat, List.dropLast_concat]

lemma length_mkFrame (b : List Nat) : (mkFrame b).length = b.length + 1 := by
  simp [mkFrame]

lemma readExact_append (a b tx : List Nat) {n : Nat} (h : a.length = n) :
    readExact ⟨a ++ b, tx⟩ n = some (a, ⟨b, tx⟩) := by
  subst h
  simp [readExact, List.take_left, List.drop_left]

lemma readExact_cons (x : Nat) (rest tx : List Nat) :
    readExact ⟨x :: rest, tx⟩ 1 = some ([x], ⟨rest, tx⟩) := by
  have : [x] ++ rest = x :: rest := rfl
  rw [← this]
  exact readExact_append [x] rest tx rfl

/-! Section: Single-command lemmas -/

lemma command_eraseflash_cons (a : Nat) (rest tx : List Nat) :
    command_eraseflash ⟨a :: rest, tx⟩ = .ok ([a] == [0x06]) ⟨rest, tx ++ eraseFrame⟩ := by
  simp [command_eraseflash, writeAll, readExact_cons]

lemma command_writeflash_cons (off : Nat) (fw : List Nat) (a : Nat) (rest tx : List Nat) :
    command_writeflash ⟨a :: rest, tx⟩ off fw =
      .ok ([a] == [0x06]) ⟨rest, tx ++ writeFlashFrame off fw⟩ := by
  simp [command_writeflash, writeAll, readExact_cons]

lemma command_writespiflash_cons (r : SpiRange) (off : Nat) (spi : List Nat)
    (a : Nat) (rest tx : List Nat) :
    command_writespiflash ⟨a :: rest, tx⟩ r off spi =
      .ok ([a] == [0x06]) ⟨rest, tx ++ writeSpiFrame r.cmd off spi⟩ := by
  simp [command_writespiflash, writeAll, readExact_cons]

/-- C7: for every byte sequence `b` of length at least 1, the checksum byte
computed over `b` is the sum of `b`'s bytes modulo 256, and appending that
byte to `b` yields a frame that passes `verify`. -/
theorem checksum_law (b : List Nat) (h : 1 ≤ b.length) :
    checksum b = b.sum % 256 ∧ verify (b ++ [checksum b]) = true :=
  ⟨checksum_eq_sum b, verify_mkFrame b⟩

/-- Witness for C7 at the spec's concrete example: `checksum [0xFF, 0x02]`
is 0x01 (the sum wraps), and the resulting 3-byte frame verifies. -/
theorem checksum_law_witness :
    1 ≤ ([0xFF, 0x02] : List Nat).length ∧ checksum [0xFF, 0x02] = 0x01 ∧
      (checksum [0xFF, 0x02] = ([0xFF, 0x02] : List Nat).sum % 256 ∧
        verify ([0xFF, 0x02] ++ [checksum [0xFF, 0x02]]) = true) :=
  ⟨by decide, by decide, checksum_law [0xFF, 0x02] (by decide)⟩

lemma length_framePayload {g : List Nat} (h : g.length = 132) :
    (framePayload g).length = 128 := by
  simp [framePayload, h]

lemma length_writeFlashFrame {fw : List Nat} {off : Nat} (h : off + 128 ≤ fw.length) :
    (writeFlashFrame off fw).length = 132 := by
  simp [writeFlashFrame, length_mkFrame, CHUNK_LENGTH]
  omega

lemma length_writeSpiFrame {spi : List Nat} {c off : Nat} (h : off + 128 ≤ spi.length) :
    (writeSpiFrame c off spi).length = 132 := by
  simp [writeSpiFrame, length_mkFrame, CHUNK_LENGTH]
  omega

/-- C8: `command_writeflash` writes exactly the 132-byte frame
`[0x57, offset hi, offset lo, fw[offset..offset+128], checksum]` to the
port (and reads one ack byte). -/
theorem writeflash_frame (fw : List Nat) (off a : Nat) (rest tx : List Nat)
    (h : off + 128 ≤ fw.length) :
    command_writeflash ⟨a :: rest, tx⟩ off fw =
      .ok ([a] == [0x06]) ⟨rest, tx ++ writeFlashFrame off fw⟩ ∧
    writeFlashFrame off fw =
      [0x57, (off >>> 8) &&& 0xFF, off &&& 0xFF] ++ (fw.drop off).take 128 ++
        [checksum ([0x57, (off >>> 8) &&& 0xFF, off &&& 0xFF] ++ (fw.drop off).take 128)] ∧
    (writeFlashFrame off fw).length = 132 :=
  ⟨command_writeflash_cons off fw a rest tx,
   by simp [writeFlashFrame, mkFrame, CHUNK_LENGTH],
   length_writeFlashFrame h⟩

/-- Witness for C8 at the spec's concrete example: byte offset 0x0180 with a
payload of 128 zero bytes yields the frame `[0x57, 0x01, 0x80, 0x00 x 128, 0xD8]`. -/
theorem writeflash_frame_witness :
    384 + 128 ≤ (List.replicate 512 (0 : Nat)).length ∧
    (writeFlashFrame 384 (List.replicate 512 0)).length = 132 ∧
    writeFlashFrame 384 (List.replicate 512 0) =
      [0x57, 0x01, 0x80] ++ List.replicate 128 (0 : Nat) ++ [0xD8] :=
  ⟨by simp,
   (writeflash_frame (List.replicate 512 0) 384 0x06 [] [] (by simp)).2.2,
   by
    rw [writeFlashFrame, mkFrame, checksum_eq_sum]
    norm_num [CHUNK_LENGTH, List.sum_replicate]
    decide⟩

/-- C9 (spec-modelled): `command_writespiflash` sends a 132-byte frame whose
byte 0 is the region opcode, whose bytes 1-2 are the low 16 bits of the byte
offset, whose payload is `image[byte_offset .. byte_offset+128]`, followed by
the checksum byte; it reads one response byte and returns true iff 0x06. -/
theorem writespiflash_frame (r : SpiRange) (spi : List Nat) (off a : Nat)
    (rest tx : List Nat) (h : off + 128 ≤ spi.length) :
    command_writespiflash ⟨a :: rest, tx⟩ r off spi =
      .ok ([a] == [0x06]) ⟨rest, tx ++ writeSpiFrame r.cmd off spi⟩ ∧
    writeSpiFrame r.cmd off spi =
      [r.cmd, (off >>> 8) &&& 0xFF, off &&& 0xFF] ++ (spi.drop off).take 128 ++
        [checksum ([r.cmd, (off >>> 8) &&& 0xFF, off &&& 0xFF] ++ (spi.drop off).take 128)] ∧
    (writeSpiFrame r.cmd off spi).length = 132 ∧
    (([a] == [0x06]) = true ↔ a = 0x06) :=
  ⟨command_writespiflash_cons r off spi a rest tx,
   by simp [writeSpiFrame, mkFrame, CHUNK_LENGTH],
   length_writeSpiFrame h,
   by simp⟩

/-- Witness for C9: the calibration opcode 0x48 writing chunk 0 of a
128-byte zero image; the frame is 132 bytes and the ack test accepts 0x06. -/
theorem writespiflash_frame_witness :
    0 + 128 ≤ (List.replicate 128 (0 : Nat)).length ∧
    (writeSpiFrame (SpiRange.mk 0x48 3928064 4096).cmd 0 (List.replicate 128 0)).length = 132 ∧
    (([0x06] == ([0x06] : List Nat)) = true ↔ (0x06 : Nat) = 0x06) :=
  ⟨by simp,
   (writespiflash_frame ⟨0x48, 3928064, 4096⟩ (List.replicate 128 0) 0 0x06 [] []
      (by simp)).2.2.1,
   (writespiflash_frame ⟨0x48, 3928064, 4096⟩ (List.replicate 128 0) 0 0x06 [] []
      (by simp)).2.2.2⟩

/-! Section: Read-command lemmas -/

lemma command_readspiflash_good (off : Nat) (g tail tx : List Nat)
    (hlen : g.length = 132) (hv : verify g = true) :
    command_readspiflash ⟨g ++ tail, tx⟩ off =
      .ok (some (framePayload g)) ⟨tail, tx ++ readReqFrame off⟩ := by
  simp only [command_readspiflash, writeAll,
    readExact_append g tail (tx ++ readReqFrame off) hlen, hv]
  simp

lemma command_readspiflash_retry (off : Nat) (b g tail tx : List Nat)
    (hb : b.length = 132) (hbv : verify b = false)
    (hg : g.length = 132) (hv : verify g = true) :
    command_readspiflash ⟨b ++ (g ++ tail), tx⟩ off =
      .ok (some (framePayload g)) ⟨tail, tx ++ readReqFrame off⟩ := by
  simp only [command_readspiflash, writeAll,
    readExact_append b (g ++ tail) (tx ++ readReqFrame off) hb, hbv,
    readExact_append g tail (tx ++ readReqFrame off) hg, hv]
  simp

lemma command_readspiflash_bad2 (off : Nat) (b1 b2 tail tx : List Nat)
    (hb1 : b1.length = 132) (hv1 : verify b1 = false)
    (hb2 : b2.length = 132) (hv2 : verify b2 = false) :
    command_readspiflash ⟨b1 ++ (b2 ++ tail), tx⟩ off =
      .ok none ⟨tail, tx ++ readReqFrame off⟩ := by
  simp only [command_readspiflash, writeAll,
    readExact_append b1 (b2 ++ tail) (tx ++ readReqFrame off) hb1, hv1,
    readExact_append b2 tail (tx ++ readReqFrame off) hb2, hv2]
  simp

/-- C3: `command_readspiflash` sends one 4-byte request; it reads one
132-byte response, and on checksum failure exactly one more without
re-sending; it returns the payload (bytes 3..131) of the first verifying
response, and `none` exactly when both responses fail verification. -/
theorem read_spi_flash_policy (off : Nat) (r1 r2 rest tx : List Nat)
    (h1 : r1.length = 132) (h2 : r2.length = 132) :
    (readReqFrame off).length = 4 ∧
    (verify r1 = true →
      command_readspiflash ⟨r1 ++ (r2 ++ rest), tx⟩ off =
        .ok (some (framePayload r1)) ⟨r2 ++ rest, tx ++ readReqFrame off⟩) ∧
    (verify r1 = false → verify r2 = true →
      command_readspiflash ⟨r1 ++ (r2 ++ rest), tx⟩ off =
        .ok (some (framePayload r2)) ⟨rest, tx ++ readReqFrame off⟩) ∧
    (verify r1 = false → verify r2 = false →
      command_readspiflash ⟨r1 ++ (r2 ++ rest), tx⟩ off =
        .ok none ⟨rest, tx ++ readReqFrame off⟩) :=
  ⟨by simp [readReqFrame, length_mkFrame],
   fun hv => command_readspiflash_good off r1 (r2 ++ rest) tx h1 hv,
   fun hv1 hv2 => command_readspiflash_retry off r1 r2 rest tx h1 hv1 h2 hv2,
   fun hv1 hv2 => command_readspiflash_bad2 off r1 r2 rest tx h1 hv1 h2 hv2⟩

/-- Witness for C3: a non-verifying first response followed by a verifying
one; the retry returns the second response's payload. -/
theorem read_spi_flash_policy_witness :
    (List.replicate 132 (1 : Nat)).length = 132 ∧
    (mkFrame (List.replicate 131 (0 : Nat))).length = 132 ∧
    verify (List.replicate 132 (1 : Nat)) = false ∧
    verify (mkFrame (List.replicate 131 (0 : Nat))) = true ∧
    command_readspiflash
        ⟨List.replicate 132 1 ++ (mkFrame (List.replicate 131 0) ++ []), []⟩ 0 =
      .ok (some (framePayload (mkFrame (List.replicate 131 0))))
        ⟨[], [] ++ readReqFrame 0⟩ :=
  ⟨by decide, by decide, by decide, by decide,
   ((read_spi_flash_policy 0 (List.replicate 132 1) (mkFrame (List.replicate 131 0)) [] []
      (by decide) (by decide)).2.2.1 (by decide) (by decide))⟩

/-! Section: Dump orchestration -/

lemma flatten_payloads_length (goods : List (List Nat))
    (h : ∀ g ∈ goods, g.length = 132) :
    ((goods.map framePayload).flatten).length = 128 * goods.length := by
  induction goods with
  | nil => simp
  | cons g gs ih =>
    have hg : (framePayload g).length = 128 := length_framePayload (h g (by simp))
    have hrest := ih (fun g hgm => h g (by simp [hgm]))
    simp only [List.map_cons, List.flatten_cons, List.length_append, hg, hrest,
      List.length_cons]
    ring

lemma dumpLoop_goods (goods : List (List Nat)) :
    ∀ (fuel offset : Nat) (file rxtail tx : List Nat),
      (∀ g ∈ goods, g.length = 132 ∧ verify g = true) →
      goods.length ≤ fuel →
      dumpLoop fuel offset ⟨goods.flatten ++ rxtail, tx⟩ file =
        dumpLoop (fuel - goods.length) (offset + goods.length)
          ⟨rxtail, tx ++ ((List.range' offset goods.length).map readReqFrame).flatten⟩
          (file ++ (goods.map framePayload).flatten) := by
  induction goods with
  | nil => intro fuel offset file rxtail tx _ _; simp
  | cons g gs ih =>
    intro fuel offset file rxtail tx hg hfuel
    obtain ⟨f, rfl⟩ : ∃ f, fuel = f + 1 :=
      ⟨fuel - 1, by simp at hfuel; omega⟩
    obtain ⟨hglen, hgv⟩ := hg g (by simp)
    have hrx : (g :: gs).flatten ++ rxtail = g ++ (gs.flatten ++ rxtail) := by simp
    rw [hrx]
    have hstep :
        dumpLoop (f + 1) offset ⟨g ++ (gs.flatten ++ rxtail), tx⟩ file =
          dumpLoop f (offset + 1) ⟨gs.flatten ++ rxtail, tx ++ readReqFrame offset⟩
            (file ++ framePayload g) := by
      simp only [dumpLoop, command_readspiflash_good offset g (gs.flatten ++ rxtail) tx
        hglen hgv]
    rw [hstep, ih f (offset + 1) (file ++ framePayload g) rxtail (tx ++ readReqFrame offset)
      (fun x hx => hg x (by simp [hx])) (by simp at hfuel; omega)]
    have e1 : f + 1 - (g :: gs).length = f - gs.length := by
      simp only [List.length_cons]; omega
    have e2 : offset + (g :: gs).length = offset + 1 + gs.length := by
      simp only [List.length_cons]; omega
    rw [e1, e2]
    have e3 : (tx ++ readReqFrame offset) ++ ((List.range' (offset + 1) gs.length).map readReqFrame).flatten =
        tx ++ ((List.range' offset (g :: gs).length).map readReqFrame).flatten := by
      simp [List.range'_succ, List.append_assoc]
    have e4 : (file ++ framePayload g) ++ ((gs.map framePayload).flatten) =
        file ++ (((g :: gs).map framePayload).flatten) := by
      simp [List.append_assoc]
    rw [e3, e4]

/-- C4: the dump requests chunk indices 0, 1, 2, … in increasing order, at
most 32,768 of them, appending each 128-byte payload in request order; it
stops at the first end-of-data sentinel, leaving exactly 128·k bytes in the
file after k valid chunks, and an all-success dump writes exactly 4,194,304
bytes. -/
theorem dump_correct :
    (∀ (goods : List (List Nat)) (b1 b2 rxtail tx : List Nat),
      (∀ g ∈ goods, g.length = 132 ∧ verify g = true) →
      goods.length ≤ 32767 →
      b1.length = 132 → verify b1 = false →
      b2.length = 132 → verify b2 = false →
      dump_spi_flash ⟨goods.flatten ++ (b1 ++ (b2 ++ rxtail)), tx⟩ =
        .ok ((goods.map framePayload).flatten)
          ⟨rxtail, tx ++ ((List.range' 0 (goods.length + 1)).map readReqFrame).flatten⟩ ∧
      ((goods.map framePayload).flatten).length = 128 * goods.length) ∧
    (∀ (goods : List (List Nat)) (rxtail tx : List Nat),
      (∀ g ∈ goods, g.length = 132 ∧ verify g = true) →
      goods.length = 32768 →
      dump_spi_flash ⟨goods.flatten ++ rxtail, tx⟩ =
        .ok ((goods.map framePayload).flatten)
          ⟨rxtail, tx ++ ((List.range' 0 32768).map readReqFrame).flatten⟩ ∧
      ((goods.map framePayload).flatten).length = 4194304) := by
  constructor
  · intro goods b1 b2 rxtail tx hgood hk hb1 hv1 hb2 hv2
    constructor
    · rw [dump_spi_flash, dumpLoop_goods goods 32768 0 [] (b1 ++ (b2 ++ rxtail)) tx hgood
        (by omega)]
      obtain ⟨m, hm⟩ : ∃ m, 32768 - goods.length = m + 1 :=
        ⟨32767 - goods.length, by omega⟩
      rw [hm]
      have hstep := command_readspiflash_bad2 (0 + goods.length) b1 b2 rxtail
        (tx ++ ((List.range' 0 goods.length).map readReqFrame).flatten) hb1 hv1 hb2 hv2
      simp only [dumpLoop, hstep]
      have : (tx ++ ((List.range' 0 goods.length).map readReqFrame).flatten) ++
          readReqFrame (0 + goods.length) =
          tx ++ ((List.range' 0 (goods.length + 1)).map readReqFrame).flatten := by
        rw [List.range'_concat]
        simp [List.append_assoc]
      rw [this]
      simp
    · exact flatten_payloads_length goods (fun g hg => (hgood g hg).1)
  · intro goods rxtail tx hgood hk
    constructor
    · rw [dump_spi_flash, dumpLoop_goods goods 32768 0 [] rxtail tx hgood (by omega)]
      rw [hk]
      simp [dumpLoop]
    · rw [flatten_payloads_length goods (fun g hg => (hgood g hg).1), hk]

/-- Witness for C4: one valid chunk followed by the double-failure sentinel;
the dump stops with a 128-byte file after two requests. -/
theorem dump_correct_witness :
    (∀ g ∈ [mkFrame (List.replicate 131 (0 : Nat))], g.length = 132 ∧ verify g = true) ∧
    (dump_spi_flash
        ⟨[mkFrame (List.replicate 131 (0 : Nat))].flatten ++
          (List.replicate 132 1 ++ (List.replicate 132 1 ++ [])), []⟩ =
      .ok (([mkFrame (List.replicate 131 (0 : Nat))].map framePayload).flatten)
        ⟨[], [] ++ ((List.range' 0 ([mkFrame (List.replicate 131 (0 : Nat))].length + 1)).map readReqFrame).flatten⟩ ∧
     (([mkFrame (List.replicate 131 (0 : Nat))].map framePayload).flatten).length =
       128 * [mkFrame (List.replicate 131 (0 : Nat))].length) :=
  ⟨by decide,
   dump_correct.1 [mkFrame (List.replicate 131 0)] (List.replicate 132 1)
     (List.replicate 132 1) [] [] (by decide) (by decide) (by decide) (by decide)
     (by decide) (by decide)⟩

/-! Section: Firmware-flash orchestration -/

lemma flashLoop_all_acks (n : Nat) :
    ∀ (fuel offset : Nat) (fw rxtail tx : List Nat),
      n ≤ fuel → offset + 128 * n = FIRMWARE_SIZE →
      flashLoop fuel offset fw ⟨List.replicate n 0x06 ++ rxtail, tx⟩ =
        .ok () ⟨rxtail,
          tx ++ ((List.range' offset n 128).map (fun o => writeFlashFrame o fw)).flatten⟩ := by
  induction n with
  | zero =>
    intro fuel offset fw rxtail tx _ hoff
    have hnlt : ¬ offset < FIRMWARE_SIZE := by omega
    cases fuel with
    | zero => simp [flashLoop]
    | succ f => simp [flashLoop, hnlt]
  | succ m ih =>
    intro fuel offset fw rxtail tx hfuel hoff
    obtain ⟨f, rfl⟩ : ∃ f, fuel = f + 1 := ⟨fuel - 1, by omega⟩
    have hlt : offset < FIRMWARE_SIZE := by omega
    have hrx : List.replicate (m + 1) 0x06 ++ rxtail =
        0x06 :: (List.replicate m 0x06 ++ rxtail) := by
      simp [List.replicate_succ]
    rw [hrx]
    have hstep :
        flashLoop (f + 1) offset fw ⟨0x06 :: (List.replicate m 0x06 ++ rxtail), tx⟩ =
          flashLoop f (offset + CHUNK_LENGTH) fw
            ⟨List.replicate m 0x06 ++ rxtail, tx ++ writeFlashFrame offset fw⟩ := by
      simp only [flashLoop, if_pos hlt, command_writeflash_cons]
      simp
    rw [hstep]
    rw [ih f (offset + CHUNK_LENGTH) fw rxtail (tx ++ writeFlashFrame offset fw)
      (by omega) (by simp [CHUNK_LENGTH] at hoff ⊢; omega)]
    have e : (tx ++ writeFlashFrame offset fw) ++
        ((List.range' (offset + CHUNK_LENGTH) m 128).map (fun o => writeFlashFrame o fw)).flatten =
        tx ++ ((List.range' offset (m + 1) 128).map (fun o => writeFlashFrame o fw)).flatten := by
      rw [List.range'_succ]
      simp [CHUNK_LENGTH, List.append_assoc]
    rw [e]

/-- C5: with a 60,416-byte image and a device acknowledging every command
with 0x06, `flash_firmware` sends the erase frame first and then exactly the
472 write frames at byte offsets 0, 128, …, 60,288 in ascending order and
returns success; if the erase command is rejected, it aborts having sent
only the erase frame (no write frame is ever issued). -/
theorem flash_firmware_behaviour :
    (∀ (fw rxtail tx : List Nat), fw.length = 60416 →
      flash_firmware fw ⟨List.replicate 473 0x06 ++ rxtail, tx⟩ =
        .ok true ⟨rxtail,
          (tx ++ eraseFrame) ++
            ((List.range' 0 472 128).map (fun o => writeFlashFrame o fw)).flatten⟩ ∧
      (List.range' 0 472 128).length = 472) ∧
    (∀ (fw : List Nat) (a : Nat) (rxtail tx : List Nat), fw.length = 60416 → a ≠ 0x06 →
      flash_firmware fw ⟨a :: rxtail, tx⟩ = .err ⟨rxtail, tx ++ eraseFrame⟩) := by
  constructor
  · intro fw rxtail tx hlen
    refine ⟨?_, by simp⟩
    have hrx : List.replicate 473 0x06 ++ rxtail =
        0x06 :: (List.replicate 472 0x06 ++ rxtail) := by
      simp [List.replicate_succ]
    have hloop := flashLoop_all_acks 472 FIRMWARE_SIZE 0 fw rxtail (tx ++ eraseFrame)
      (by simp [FIRMWARE_SIZE]) (by simp [FIRMWARE_SIZE])
    have hack : (([0x06] : List Nat) == [0x06]) = true := rfl
    rw [hrx, flash_firmware, if_neg (by simp [hlen, FIRMWARE_SIZE]),
      command_eraseflash_cons, hack]
    simp only [hloop]
  · intro fw a rxtail tx hlen ha
    have hack : (([a] : List Nat) == [0x06]) = false := by
      simp [ha]
    rw [flash_firmware, if_neg (by simp [hlen, FIRMWARE_SIZE]),
      command_eraseflash_cons, hack]

/-- Witness for C5: a 60,416-byte zero image with an all-acknowledging
device, and the same image against a device answering 0x15 to erase. -/
theorem flash_firmware_behaviour_witness :
    (List.replicate 60416 (0 : Nat)).length = 60416 ∧ (0x15 : Nat) ≠ 0x06 ∧
    (flash_firmware (List.replicate 60416 0) ⟨List.replicate 473 0x06 ++ [], []⟩ =
        .ok true ⟨[],
          ([] ++ eraseFrame) ++
            ((List.range' 0 472 128).map
              (fun o => writeFlashFrame o (List.replicate 60416 0))).flatten⟩ ∧
      (List.range' 0 472 128).length = 472) ∧
    flash_firmware (List.replicate 60416 0) ⟨0x15 :: [], []⟩ = .err ⟨[], [] ++ eraseFrame⟩ :=
  ⟨List.length_replicate 60416 0, by decide,
   flash_firmware_behaviour.1 (List.replicate 60416 0) [] [] (List.length_replicate 60416 0),
   flash_firmware_behaviour.2 (List.replicate 60416 0) 0x15 [] []
     (List.length_replicate 60416 0) (by decide)⟩

/-! Section: Restore orchestration -/

lemma writeRegionLoop_all_acks (n : Nat) :
    ∀ (fuel : Nat) (r : SpiRange) (offset blockLen : Nat) (spi rxtail tx : List Nat),
      n ≤ fuel → blockLen = offset + 128 * n →
      writeRegionLoop fuel r offset blockLen spi ⟨List.replicate n 0x06 ++ rxtail, tx⟩ =
        .ok () ⟨rxtail,
          tx ++ ((List.range' offset n 128).map (fun o => writeSpiFrame r.cmd o spi)).flatten⟩ := by
  induction n with
  | zero =>
    intro fuel r offset blockLen spi rxtail tx _ hblock
    have hnlt : ¬ offset < blockLen := by omega
    cases fuel with
    | zero => simp [writeRegionLoop]
    | succ f => simp [writeRegionLoop, hnlt]
  | succ m ih =>
    intro fuel r offset blockLen spi rxtail tx hfuel hblock
    obtain ⟨f, rfl⟩ : ∃ f, fuel = f + 1 := ⟨fuel - 1, by omega⟩
    have hlt : offset < blockLen := by omega
    have hrx : List.replicate (m + 1) 0x06 ++ rxtail =
        0x06 :: (List.replicate m 0x06 ++ rxtail) := by
      simp [List.replicate_succ]
    rw [hrx]
    have hstep :
        writeRegionLoop (f + 1) r offset blockLen spi
            ⟨0x06 :: (List.replicate m 0x06 ++ rxtail), tx⟩ =
          writeRegionLoop f r (offset + CHUNK_LENGTH) blockLen spi
            ⟨List.replicate m 0x06 ++ rxtail, tx ++ writeSpiFrame r.cmd offset spi⟩ := by
      simp only [writeRegionLoop, if_pos hlt, command_writespiflash_cons]
      simp
    rw [hstep]
    rw [ih f r (offset + CHUNK_LENGTH) blockLen spi rxtail
      (tx ++ writeSpiFrame r.cmd offset spi) (by omega)
      (by simp [CHUNK_LENGTH]; omega)]
    have e : (tx ++ writeSpiFrame r.cmd offset spi) ++
        ((List.range' (offset + CHUNK_LENGTH) m 128).map
          (fun o => writeSpiFrame r.cmd o spi)).flatten =
        tx ++ ((List.range' offset (m + 1) 128).map
          (fun o => writeSpiFrame r.cmd o spi)).flatten := by
      rw [List.range'_succ]
      simp [CHUNK_LENGTH, List.append_assoc]
    rw [e]

lemma restoreRegions_all_acks (ranges : List SpiRange) :
    ∀ (spi rxtail tx : List Nat),
      (∀ r ∈ ranges, r.size % 128 = 0) →
      restoreRegions ranges spi ⟨List.replicate (chunkCount ranges) 0x06 ++ rxtail, tx⟩ =
        .ok () ⟨rxtail,
          tx ++ ((spiCalls ranges).map (fun p => writeSpiFrame p.1 p.2 spi)).flatten⟩ := by
  induction ranges with
  | nil => intro spi rxtail tx _; simp [restoreRegions, chunkCount, spiCalls]
  | cons r rs ih =>
    intro spi rxtail tx hdvd
    have hdvd_r : r.size % 128 = 0 := hdvd r (by simp)
    have hsplit : List.replicate (chunkCount (r :: rs)) 0x06 ++ rxtail =
        List.replicate (r.size / 128) 0x06 ++
          (List.replicate (chunkCount rs) 0x06 ++ rxtail) := by
      rw [show chunkCount (r :: rs) = r.size / 128 + chunkCount rs from rfl,
        List.replicate_add, List.append_assoc]
    rw [hsplit]
    have hblock : r.offset + r.size = r.offset + 128 * (r.size / 128) := by
      have h128 : 128 * (r.size / 128) = r.size :=
        Nat.mul_div_cancel' (Nat.dvd_of_mod_eq_zero hdvd_r)
      omega
    have hloop := writeRegionLoop_all_acks (r.size / 128) r.size r r.offset
      (r.offset + r.size) spi (List.replicate (chunkCount rs) 0x06 ++ rxtail) tx
      (Nat.div_le_self _ _) hblock
    simp only [restoreRegions, hloop]
    rw [ih spi rxtail
      (tx ++ ((List.range' r.offset (r.size / 128) 128).map
        (fun o => writeSpiFrame r.cmd o spi)).flatten)
      (fun x hx => hdvd x (by simp [hx]))]
    simp only [spiCalls, List.map_append, List.map_map, List.flatten_append,
      List.append_assoc]
    rfl

lemma map_fst_pairs (c : Nat) (L : List Nat) :
    (L.map (fun o => (c, o))).map Prod.fst = List.replicate L.length c := by
  induction L with
  | nil => simp
  | cons x xs ih => simp [ih, List.replicate_succ]

/-- C2: `restore_spi_flash` walks the selected region table in order, one
write per 128-byte chunk offset; the full-restore call trace carries the
opcodes 0x40 x 23040, 0x41 x 1280, 0x42 x 1088, 0x43 x 64, 0x47 x 320,
0x48 x 32, 0x49 x 320, 0x4B x 320, 0x4C x 4896 in that order, and the
calibration-only restore issues exactly 32 frames, all with opcode 0x48, at
byte offsets 3,928,064, 3,928,192, …, 3,932,032. -/
theorem restore_behaviour :
    (∀ (spi rxtail tx : List Nat), spi.length = 4194304 →
      restore_spi_flash false spi ⟨List.replicate 31360 0x06 ++ rxtail, tx⟩ =
        .ok true ⟨rxtail,
          tx ++ ((spiCalls spi_ranges_full).map
            (fun p => writeSpiFrame p.1 p.2 spi)).flatten⟩) ∧
    ((spiCalls spi_ranges_full).map Prod.fst =
      List.replicate 23040 0x40 ++ List.replicate 1280 0x41 ++
      List.replicate 1088 0x42 ++ List.replicate 64 0x43 ++
      List.replicate 320 0x47 ++ List.replicate 32 0x48 ++
      List.replicate 320 0x49 ++ List.replicate 320 0x4B ++
      List.replicate 4896 0x4C) ∧
    (∀ (spi rxtail tx : List Nat), spi.length = 4194304 →
      restore_spi_flash true spi ⟨List.replicate 32 0x06 ++ rxtail, tx⟩ =
        .ok true ⟨rxtail,
          tx ++ ((spiCalls spi_ranges_calib).map
            (fun p => writeSpiFrame p.1 p.2 spi)).flatten⟩) ∧
    (spiCalls spi_ranges_calib = (List.range' 3928064 32 128).map (fun o => (0x48, o))) := by
  refine ⟨?_, ?_, ?_, ?_⟩
  · intro spi rxtail tx hlen
    have hcc : chunkCount spi_ranges_full = 31360 := by decide
    have hregions := restoreRegions_all_acks spi_ranges_full spi rxtail tx (by decide)
    rw [hcc] at hregions
    rw [restore_spi_flash, if_neg (by simp [hlen, SPI_FLASH_SIZE])]
    simp only [Bool.false_eq_true, if_false, hregions]
  · simp only [spiCalls, spi_ranges_full, List.map_append, map_fst_pairs,
      List.length_range', List.append_assoc, List.append_nil]
  · intro spi rxtail tx hlen
    have hcc : chunkCount spi_ranges_calib = 32 := by decide
    have hregions := restoreRegions_all_acks spi_ranges_calib spi rxtail tx (by decide)
    rw [hcc] at hregions
    rw [restore_spi_flash, if_neg (by simp [hlen, SPI_FLASH_SIZE])]
    simp only [if_true, hregions]
  · simp [spiCalls, spi_ranges_calib]

/-- Witness for C2: a full restore and a calibration-only restore of an
all-zero 4 MiB image against an all-acknowledging device. -/
theorem restore_behaviour_witness :
    (List.replicate 4194304 (0 : Nat)).length = 4194304 ∧
    restore_spi_flash false (List.replicate 4194304 0)
        ⟨List.replicate 31360 0x06 ++ [], []⟩ =
      .ok true ⟨[],
        [] ++ ((spiCalls spi_ranges_full).map
          (fun p => writeSpiFrame p.1 p.2 (List.replicate 4194304 0))).flatten⟩ ∧
    restore_spi_flash true (List.replicate 4194304 0)
        ⟨List.replicate 32 0x06 ++ [], []⟩ =
      .ok true ⟨[],
        [] ++ ((spiCalls spi_ranges_calib).map
          (fun p => writeSpiFrame p.1 p.2 (List.replicate 4194304 0))).flatten⟩ :=
  ⟨List.length_replicate 4194304 0,
   restore_behaviour.1 (List.replicate 4194304 0) [] [] (List.length_replicate 4194304 0),
   restore_behaviour.2.2.1 (List.replicate 4194304 0) [] [] (List.length_replicate 4194304 0)⟩

/-! Section: Region-table geometry -/

lemma spiCovered_eq :
    spiCovered = Finset.Ico 0 3932160 ∪
      (Finset.Ico 3936256 3977216 ∪ Finset.Ico 4030464 4071424) := by
  ext a
  simp [spiCovered, spi_ranges_full, Finset.mem_union, Finset.mem_Ico]
  omega

lemma spiCovered_card : spiCovered.card = 4014080 := by
  rw [spiCovered_eq]
  rw [Finset.card_union_of_disjoint (by
    simp [Finset.disjoint_left, Finset.mem_Ico, Finset.mem_union]
    omega)]
  rw [Finset.card_union_of_disjoint (by
    simp [Finset.disjoint_left, Finset.mem_Ico]
    omega)]
  simp [Nat.card_Ico]

/-- C1 counterexample: the union of the nine half-open full-restore regions
has total measure 4,014,080 bytes, not 4,012,288 as claimed. -/
theorem spi_ranges_measure_cex :
    spiCovered.card = 4014080 ∧ spiCovered.card ≠ 4012288 :=
  ⟨spiCovered_card, by rw [spiCovered_card]; decide⟩

/-- C1 amended: the union of the nine half-open full-restore regions has
total measure 4,014,080 bytes, every region's size is a multiple of 128, and
every region satisfies offset + size ≤ 4,194,304. -/
theorem spi_ranges_invariants :
    spiCovered.card = 4014080 ∧
    (spi_ranges_full.all fun r =>
      decide (r.size % 128 = 0 ∧ r.offset + r.size ≤ 4194304)) = true :=
  ⟨spiCovered_card, by decide⟩

/-- C10: the nine full-restore regions are pairwise disjoint; no byte offset
of the SPI image lies inside two distinct regions, so each 128-byte chunk of
the input image is sent at most once during a full restore. -/
theorem spi_ranges_disjoint :
    ∀ r ∈ spi_ranges_full, ∀ s ∈ spi_ranges_full, r ≠ s →
      ∀ a : Nat, inRange r a → ¬ inRange s a := by
  intro r hr s hs hne a h1 h2
  fin_cases hr <;> fin_cases hs <;> simp_all [inRange, spi_ranges_full] <;> omega

/-- Witness for C10: byte offset 0 lies in the first region (0x40) and hence
in no other, e.g. not in the 0x41 region. -/
theorem spi_ranges_disjoint_witness :
    (⟨0x40, 0, 2949120⟩ : SpiRange) ∈ spi_ranges_full ∧
    (⟨0x41, 2949120, 163840⟩ : SpiRange) ∈ spi_ranges_full ∧
    (⟨0x40, 0, 2949120⟩ : SpiRange) ≠ ⟨0x41, 2949120, 163840⟩ ∧
    inRange ⟨0x40, 0, 2949120⟩ 0 ∧
    ¬ inRange ⟨0x41, 2949120, 163840⟩ 0 :=
  ⟨by decide, by decide, by decide, by decide,
   spi_ranges_disjoint ⟨0x40, 0, 2949120⟩ (by decide) ⟨0x41, 2949120, 163840⟩
     (by decide) (by decide) 0 (by decide)⟩

/-! Section: Size gate and exit status -/

/-- C6 counterexample: with an input file of the wrong size, the invocation
issues no serial traffic but terminates with exit status 0 (main prints the
size message and returns normally), not a non-zero status. -/
theorem size_gate_exit_cex :
    mainFlash [] ⟨[], []⟩ = (0, ⟨[], []⟩) ∧
    mainRestore false [] ⟨[], []⟩ = (0, ⟨[], []⟩) := by
  constructor <;> decide

/-- C6 amended: if the input file's length differs from the expected size,
the tool reports the mismatch, writes no bytes to the serial link (the link
state is unchanged: no erase, write or read frame is issued), and the
invocation terminates with exit status 0. -/
theorem size_gate_no_io (fw spi : List Nat) (l : Link) (c : Bool)
    (hfw : fw.length ≠ 60416) (hspi : spi.length ≠ 4194304) :
    mainFlash fw l = (0, l) ∧ mainRestore c spi l = (0, l) := by
  constructor
  · rw [mainFlash, flash_firmware, if_pos (by simpa [FIRMWARE_SIZE] using hfw)]
  · rw [mainRestore, restore_spi_flash, if_pos (by simpa [SPI_FLASH_SIZE] using hspi)]

/-- Witness for C6 (amended) at empty input files. -/
theorem size_gate_no_io_witness :
    ([] : List Nat).length ≠ 60416 ∧ ([] : List Nat).length ≠ 4194304 ∧
    (mainFlash [] ⟨[], [0x01]⟩ = (0, ⟨[], [0x01]⟩) ∧
      mainRestore false [] ⟨[], [0x01]⟩ = (0, ⟨[], [0x01]⟩)) :=
  ⟨by decide, by decide,
   size_gate_no_io [] [] ⟨[], [0x01]⟩ false (by decide) (by decide)⟩

end RT890
